import Mathlib

/-!
Verification development for the chatwithmcp frontend core: the streamed
message reconciler, the stream decoder of `conversationAPI.sendMessageStream`
(frontend/src/lib/api.ts), and the conversation page handlers
`handleSendMessage` / `handleModelChange` (the conversation page component).

React `useState` state is embedded as an explicit record `ChatState`; each
event handler becomes a pure function from the pre-state (plus the outcomes of
its awaited network calls, passed as explicit `Except` arguments) to the
post-state together with the list of requests it issues.  The byte-stream
decoding performed by `TextDecoder.decode(value, ·stream: true·)` is embedded
as the standard incremental UTF-8 decoding automaton (WHATWG encoding
standard), operating on byte lists and emitting code-point lists.
-/

/-- The `Message` record of the conversation page (interface Message). -/
structure Message where
  id : String
  role : String
  content : String
  created_at : String
  conversation_id : String
deriving Repr, DecidableEq

/-- The `Conversation` record of the conversation page (interface Conversation). -/
structure Conversation where
  id : String
  title : String
  model : String
  created_at : String
  updated_at : Option String
  user_id : String
deriving Repr, DecidableEq

/-- The component state of the conversation page: the `useState` hooks that the
send and model-switch handlers read and write. -/
structure ChatState where
  conversation : Option Conversation
  messages : List Message
  newMessage : String
  selectedModel : String
  isSending : Bool
  usingMock : Bool
  error : Option String
  debugInfo : Option String
deriving Repr, DecidableEq

/-- The `setMessages(prev => prev.map(...))` update performed by the `onChunk`
callback of `handleSendMessage`: append `delta` to the content of every message
whose id matches `targetId`, leave all other messages untouched. -/
def updateContent (msgs : List Message) (targetId : String) (delta : String) : List Message :=
  msgs.map fun msg =>
    if msg.id = targetId then { msg with content := msg.content ++ delta } else msg

/-- Applying a whole sequence of streamed chunks to the transcript, in delivery
order (each chunk triggers one `updateContent`). -/
def applyChunks (msgs : List Message) (targetId : String) (chunks : List String) : List Message :=
  chunks.foldl (fun acc c => updateContent acc targetId c) msgs

/-- Concatenation of the delivered fragments in delivery order. -/
def concatFragments : List String → String
  | [] => ""
  | f :: fs => f ++ concatFragments fs

/-- State of the incremental UTF-8 decoder (`new TextDecoder()` used with
`stream: true`), as in the WHATWG encoding standard: the partially accumulated
code point, how many continuation bytes are still needed and how many have been
seen, and the admissible range for the next continuation byte. -/
structure DecoderState where
  codePoint : Nat
  bytesNeeded : Nat
  bytesSeen : Nat
  lowerBoundary : Nat
  upperBoundary : Nat
deriving Repr, DecidableEq

/-- Initial decoder state: no multi-byte sequence in progress. -/
def DecoderState.init : DecoderState := ⟨0, 0, 0, 128, 191⟩

/-- Handling one byte in the initial (no sequence pending) state. -/
def startByte (b : Nat) : List Nat × DecoderState :=
  if b ≤ 127 then ([b], DecoderState.init)
  else if 194 ≤ b ∧ b ≤ 223 then ([], ⟨b % 32, 1, 0, 128, 191⟩)
  else if 224 ≤ b ∧ b ≤ 239 then
    ([], ⟨b % 16, 2, 0, if b = 224 then 160 else 128, if b = 237 then 159 else 191⟩)
  else if 240 ≤ b ∧ b ≤ 244 then
    ([], ⟨b % 8, 3, 0, if b = 240 then 144 else 128, if b = 244 then 143 else 191⟩)
  else ([65533], DecoderState.init)

/-- Feeding one byte to the incremental decoder: returns the code points
emitted for this byte and the successor state.  A continuation byte outside the
admissible range emits U+FFFD and reprocesses the byte in the initial state
(error mode `replacement`, as `new TextDecoder()` without `fatal`). -/
def feedByte (s : DecoderState) (b : Nat) : List Nat × DecoderState :=
  if s.bytesNeeded = 0 then startByte b
  else if s.lowerBoundary ≤ b ∧ b ≤ s.upperBoundary then
    if s.bytesSeen + 1 = s.bytesNeeded then
      ([s.codePoint * 64 + b % 64], DecoderState.init)
    else
      ([], ⟨s.codePoint * 64 + b % 64, s.bytesNeeded, s.bytesSeen + 1, 128, 191⟩)
  else
    (65533 :: (startByte b).1, (startByte b).2)

/-- One call of `decoder.decode(value, ·stream: true·)`: feed a whole byte
chunk, emitting the decoded code points and carrying the buffered partial
sequence over to the next read. -/
def feedBytes : DecoderState → List Nat → List Nat × DecoderState
  | s, [] => ([], s)
  | s, b :: rest =>
    ((feedByte s b).1 ++ (feedBytes (feedByte s b).2 rest).1,
     (feedBytes (feedByte s b).2 rest).2)

/-- The decoded text fragment produced for each read chunk, threading the
decoder state between reads (one entry per `reader.read()` result). -/
def decodeChunks : DecoderState → List (List Nat) → List (List Nat) × DecoderState
  | s, [] => ([], s)
  | s, c :: rest =>
    ((feedBytes s c).1 :: (decodeChunks (feedBytes s c).2 rest).1,
     (decodeChunks (feedBytes s c).2 rest).2)

/-- Reference UTF-8 encoding of one Unicode scalar value. -/
def utf8EncodeChar (c : Nat) : List Nat :=
  if c ≤ 127 then [c]
  else if c ≤ 2047 then [192 + c / 64, 128 + c % 64]
  else if c ≤ 65535 then [224 + c / 4096, 128 + c / 64 % 64, 128 + c % 64]
  else [240 + c / 262144, 128 + c / 4096 % 64, 128 + c / 64 % 64, 128 + c % 64]

/-- Reference UTF-8 encoding of a sequence of scalar values. -/
def utf8Encode (cps : List Nat) : List Nat := (cps.map utf8EncodeChar).flatten

/-- Unicode scalar values: code points outside the surrogate range. -/
def ScalarValue (c : Nat) : Prop := c < 55296 ∨ (57344 ≤ c ∧ c ≤ 1114111)

instance (c : Nat) : Decidable (ScalarValue c) := by
  unfold ScalarValue
  infer_instance

/-- Observable callback events of `sendMessageStream`: an `onMessage` call with
a decoded text fragment, or the final `onDone` call. -/
inductive StreamEvent where
  | chunk (text : List Nat)
  | done
deriving Repr, DecidableEq

/-- The read loop of `sendMessageStream`: for each read chunk, decode it and
invoke `onMessage` only when the decoded text is non-empty (`if (text)`);
when the reader reports `done`, invoke `onDone` and stop. -/
def streamLoop : DecoderState → List (List Nat) → List StreamEvent
  | _, [] => [StreamEvent.done]
  | s, c :: rest =>
    (if (feedBytes s c).1.isEmpty then [] else [StreamEvent.chunk (feedBytes s c).1])
      ++ streamLoop (feedBytes s c).2 rest

/-- Failure modes of `sendMessageStream` before any chunk is processed:
missing auth token, non-success HTTP status (`response.ok` false, the thrown
error message carries `response.status`), or a response without a readable
body. -/
inductive StreamError where
  | noToken
  | transport (status : Nat)
  | noBody
deriving Repr, DecidableEq

/-- The fetch response visible to `sendMessageStream`: the success flag, the
HTTP status, and the body as a sequence of byte chunks when readable. -/
structure StreamResponse where
  ok : Bool
  status : Nat
  body : Option (List (List Nat))
deriving Repr, DecidableEq

/-- `conversationAPI.sendMessageStream`: checks the token, fails on a
non-success status or a missing body, otherwise runs the read loop. -/
def sendMessageStream (token : Option String) (resp : StreamResponse) :
    Except StreamError (List StreamEvent) :=
  match token with
  | none => Except.error StreamError.noToken
  | some _ =>
    if resp.ok = false then Except.error (StreamError.transport resp.status)
    else
      match resp.body with
      | none => Except.error StreamError.noBody
      | some chunks => Except.ok (streamLoop DecoderState.init chunks)

/-- The fragments passed to `onMessage` by a finished (or failed) call: a
failed call has invoked no `onChunk` callback at all. -/
def emittedChunks : Except StreamError (List StreamEvent) → List (List Nat)
  | Except.error _ => []
  | Except.ok evs => evs.filterMap fun e =>
      match e with
      | StreamEvent.chunk t => some t
      | StreamEvent.done => none

/-- Body of the POST issued by `conversationAPI.createConversation`: the first
50 characters of the message text as title, plus the model. -/
structure CreateConversationBody where
  title : String
  model : String
deriving Repr, DecidableEq

/-- `conversationAPI.createConversation(content, model)` request body:
`title: content.slice(0, 50)`, `model`. -/
def createConversationBody (content : String) (model : String) : CreateConversationBody :=
  { title := content.take 50, model := model }

/-- Requests and navigations issued by `handleSendMessage`. -/
inductive Effect where
  | createConversationReq (body : CreateConversationBody)
  | streamReq (conversationId : String) (content : String)
  | navigate (path : String)
deriving Repr, DecidableEq

/-- Outcome of the streaming call as observed by `handleSendMessage`: either
the stream ran to completion delivering `fragments`, or it failed with error
`err` after delivering `fragments`. -/
inductive StreamResult where
  | ok (fragments : List String)
  | fail (fragments : List String) (err : String)
deriving Repr, DecidableEq

/-- The whitespace characters stripped by the JavaScript `trim()` in the
submit guard (space, tab, line terminators, form feed, vertical tab,
no-break space, byte order mark). -/
def isJsWhitespace (c : Char) : Bool :=
  c = ' ' || c = '\t' || c = '\n' || c = '\r' ||
  c = '\x0B' || c = '\x0C' || c = '\u00A0' || c = '\uFEFF'

/-- JavaScript `s.trim()`: strip leading and trailing whitespace. -/
def jsTrim (s : String) : String :=
  ⟨((s.data.dropWhile isJsWhitespace).reverse.dropWhile isJsWhitespace).reverse⟩

/-- The submit guard of `handleSendMessage`:
`if (!newMessage.trim() || !selectedModel || isSending) return`. -/
def sendGuardRejects (st : ChatState) : Bool :=
  jsTrim st.newMessage == "" || st.selectedModel == "" || st.isSending

/-- The optimistic user message id: `Date.now().toString()`. -/
def tempUserId (now : Nat) : String := toString now

/-- The assistant placeholder id: the template literal `assistant-` followed by
`Date.now()`. -/
def tempAssistantId (now : Nat) : String := "assistant-" ++ toString now

/-- The optimistic user message appended on submit. -/
def mkUserMessage (now : Nat) (iso text cid : String) : Message :=
  { id := tempUserId now, role := "user", content := text,
    created_at := iso, conversation_id := cid }

/-- The empty assistant placeholder appended before the streaming call. -/
def mkPlaceholder (now : Nat) (iso cid : String) : Message :=
  { id := tempAssistantId now, role := "assistant", content := "",
    created_at := iso, conversation_id := cid }

/-- The synchronous prefix of `handleSendMessage`, up to the first `await`:
guard check, optimistic append of the user message, clearing the input,
setting `isSending`, and (in the default streaming branch) appending the empty
assistant placeholder. -/
def beginSend (st : ChatState) (cid : String) (now : Nat) (iso : String) : ChatState :=
  if sendGuardRejects st then st
  else
    let st1 := { st with
      messages := st.messages ++ [mkUserMessage now iso st.newMessage cid],
      newMessage := "",
      isSending := true }
    if st.usingMock then st1
    else if cid = "new" then st1
    else { st1 with messages := st1.messages ++ [mkPlaceholder now iso cid] }

/-- The continuation of the streaming branch of `handleSendMessage`: on
completion the chunks have been applied and `onDone` clears `isSending`; on
failure the chunks delivered so far have been applied, the error is recorded
and the catch block filters out the optimistic user message
(`prev.filter(msg => msg.id !== tempId)`), with `finally` clearing
`isSending`. -/
def settleStream (st : ChatState) (now : Nat) (sr : StreamResult) : ChatState :=
  match sr with
  | StreamResult.ok frags =>
    { st with
      messages := applyChunks st.messages (tempAssistantId now) frags,
      isSending := false,
      debugInfo := some "stream-complete" }
  | StreamResult.fail frags e =>
    { st with
      messages := (applyChunks st.messages (tempAssistantId now) frags).filter
        (fun m => m.id != tempUserId now),
      error := some e,
      debugInfo := some ("send-failed: " ++ e),
      isSending := false }

/-- The canned assistant reply of the mock branch. -/
def mockReplyText : String := "这是一个模拟的AI回复。在实际应用中，这将由后端API返回。"

/-- `handleSendMessage`, as a function of the pre-state and the outcomes of
its awaited calls (`createRes` for `createConversation` in the
new-conversation branch, `sr` for `sendMessageStream` in the streaming
branch).  Returns the post-state and the requests issued. -/
def handleSendMessage (st : ChatState) (cid : String) (now : Nat) (iso : String)
    (createRes : Except String String) (sr : StreamResult) : ChatState × List Effect :=
  if sendGuardRejects st then (st, [])
  else
    let st1 := beginSend st cid now iso
    if st.usingMock then
      ({ st1 with
          messages := st1.messages ++
            [{ id := toString (now + 1), role := "assistant", content := mockReplyText,
               created_at := iso, conversation_id := cid }],
          isSending := false }, [])
    else if cid = "new" then
      match createRes with
      | Except.ok newId =>
        ({ st1 with isSending := false },
         [Effect.createConversationReq (createConversationBody st.newMessage st.selectedModel),
          Effect.navigate ("/conversations/" ++ newId)])
      | Except.error e =>
        ({ st1 with
            error := some e,
            debugInfo := some ("send-failed: " ++ e),
            messages := st1.messages.filter (fun m => m.id != tempUserId now),
            isSending := false },
         [Effect.createConversationReq (createConversationBody st.newMessage st.selectedModel)])
    else
      (settleStream st1 now sr, [Effect.streamReq cid st.newMessage])

/-- `fetchMessages`: on success replaces the whole message list with the
fetched page items; its internal catch records the error without rethrowing. -/
def applyFetchMessages (st : ChatState) (reload : Except String (List Message)) : ChatState :=
  match reload with
  | Except.ok items => { st with messages := items, debugInfo := some "messages-loaded" }
  | Except.error e => { st with error := some e }

/-- `handleModelChange`, as a function of the pre-state and the outcomes of its
awaited calls: `primary` for `conversationAPI.updateConversationModel`,
`fallbackPut` for the generic PUT fallback, `resetRes` for
`conversationAPI.resetConversation`, and `reload` for `fetchMessages`.
`setSelectedModel(modelId)` runs unconditionally first; when both update paths
fail the outer catch records the original primary error
(`throw modelError`). -/
def handleModelChange (st : ChatState) (conversationId modelId : String)
    (primary : Except String Conversation)
    (fallbackPut : Except String Conversation)
    (resetRes : Except String Unit)
    (reload : Except String (List Message)) : ChatState :=
  let st0 := { st with selectedModel := modelId }
  if conversationId = "new" then st0
  else
    let st1 := { st0 with error := none }
    match primary with
    | Except.ok updated => applyFetchMessages { st1 with conversation := some updated } reload
    | Except.error primaryErr =>
      match fallbackPut with
      | Except.ok updated =>
        match resetRes with
        | Except.ok _ => applyFetchMessages { st1 with conversation := some updated } reload
        | Except.error _ =>
          { st1 with conversation := some updated,
                     error := some primaryErr,
                     debugInfo := some ("model-update-failed: " ++ primaryErr) }
      | Except.error _ =>
        { st1 with error := some primaryErr,
                   debugInfo := some ("model-update-failed: " ++ primaryErr) }

/-- A concrete pre-state used by the witnesses and counterexamples: empty
transcript, input text entered, a model selected, no send in flight. -/
def exState : ChatState :=
  { conversation := none, messages := [], newMessage := "hi", selectedModel := "gpt-4",
    isSending := false, usingMock := false, error := none, debugInfo := none }

/-! ## Helper lemmas -/

theorem applyChunks_nil (msgs : List Message) (tid : String) : applyChunks msgs tid [] = msgs :=
  rfl

theorem applyChunks_cons (msgs : List Message) (tid f : String) (fs : List String) :
    applyChunks msgs tid (f :: fs) = applyChunks (updateContent msgs tid f) tid fs :=
  rfl

theorem applyChunks_eq_map (frags : List String) (msgs : List Message) (tid : String) :
    applyChunks msgs tid frags =
      msgs.map (fun m =>
        if m.id = tid then { m with content := m.content ++ concatFragments frags } else m) := by
  induction frags generalizing msgs with
  | nil =>
    have hfun : (fun (m : Message) =>
        if m.id = tid then { m with content := m.content ++ concatFragments [] } else m) =
        fun m => m := by
      funext m
      by_cases h : m.id = tid
      · rw [if_pos h]
        show { m with content := m.content ++ "" } = m
        rw [String.append_empty]
      · rw [if_neg h]
    rw [applyChunks_nil, hfun]
    exact (List.map_id msgs).symm
  | cons f fs ih =>
    rw [applyChunks_cons, ih, updateContent, List.map_map]
    have hfun : ((fun (m : Message) =>
        if m.id = tid then { m with content := m.content ++ concatFragments fs } else m) ∘
        (fun (m : Message) =>
          if m.id = tid then { m with content := m.content ++ f } else m)) =
        fun m =>
          if m.id = tid then { m with content := m.content ++ concatFragments (f :: fs) } else m := by
      funext m
      by_cases h : m.id = tid
      · simp [Function.comp, h, concatFragments, String.append_assoc]
      · simp [Function.comp, h]
    rw [hfun]

theorem tempIds_ne (now : Nat) : tempAssistantId now ≠ tempUserId now := by
  unfold tempAssistantId tempUserId
  intro h
  have h2 := congrArg String.length h
  rw [String.length_append] at h2
  have h3 : ("assistant-" : String).length = 10 := rfl
  omega

theorem beginSend_isSending (st : ChatState) (cid : String) (now : Nat) (iso : String)
    (h : sendGuardRejects st = false) : (beginSend st cid now iso).isSending = true := by
  rw [beginSend, if_neg (by simp [h])]
  by_cases hm : st.usingMock = true
  · simp [hm]
  · by_cases hc : cid = "new" <;> simp [hm, hc]

theorem feedBytes_append (a b : List Nat) (s : DecoderState) :
    feedBytes s (a ++ b) =
      ((feedBytes s a).1 ++ (feedBytes (feedBytes s a).2 b).1,
       (feedBytes (feedBytes s a).2 b).2) := by
  induction a generalizing s with
  | nil => simp [feedBytes]
  | cons x xs ih => simp [feedBytes, ih, List.append_assoc]

theorem decodeChunks_flatten (chunks : List (List Nat)) (s : DecoderState) :
    (decodeChunks s chunks).1.flatten = (feedBytes s chunks.flatten).1 ∧
    (decodeChunks s chunks).2 = (feedBytes s chunks.flatten).2 := by
  induction chunks generalizing s with
  | nil => simp [decodeChunks, feedBytes]
  | cons c cs ih =>
    constructor
    · simp [decodeChunks, feedBytes_append, (ih (feedBytes s c).2).1]
    · simp [decodeChunks, feedBytes_append, (ih (feedBytes s c).2).2]

theorem feedByte_cont_last (cp0 lb ub n b : Nat) (hb : lb ≤ b ∧ b ≤ ub) :
    feedByte ⟨cp0, n + 1, n, lb, ub⟩ b = ([cp0 * 64 + b % 64], DecoderState.init) := by
  rw [feedByte]
  dsimp only
  rw [if_neg (by omega), if_pos hb, if_pos rfl]

theorem feedByte_cont_mid (cp0 lb ub need seen b : Nat) (hneed : need ≠ 0)
    (hb : lb ≤ b ∧ b ≤ ub) (hmid : seen + 1 ≠ need) :
    feedByte ⟨cp0, need, seen, lb, ub⟩ b =
      ([], ⟨cp0 * 64 + b % 64, need, seen + 1, 128, 191⟩) := by
  rw [feedByte]
  dsimp only
  rw [if_neg hneed, if_pos hb, if_neg hmid]

theorem feedByte_init (b : Nat) : feedByte DecoderState.init b = startByte b := by
  rw [feedByte]
  dsimp only [DecoderState.init]
  rw [if_pos rfl]

theorem feedBytes_ascii (c : Nat) (h : c ≤ 127) :
    feedBytes DecoderState.init [c] = ([c], DecoderState.init) := by
  simp only [feedBytes, feedByte_init, startByte]
  rw [if_pos h]
  simp

theorem feedBytes_two (c : Nat) (h1 : 128 ≤ c) (h2 : c ≤ 2047) :
    feedBytes DecoderState.init [192 + c / 64, 128 + c % 64] = ([c], DecoderState.init) := by
  have e1 : feedByte DecoderState.init (192 + c / 64) =
      ([], ⟨(192 + c / 64) % 32, 1, 0, 128, 191⟩) := by
    rw [feedByte_init, startByte]
    rw [if_neg (by omega), if_pos (by omega)]
  have e2 : feedByte ⟨(192 + c / 64) % 32, 1, 0, 128, 191⟩ (128 + c % 64) =
      ([(192 + c / 64) % 32 * 64 + (128 + c % 64) % 64], DecoderState.init) :=
    feedByte_cont_last _ _ _ 0 _ (by omega)
  simp only [feedBytes, e1, e2, List.nil_append, List.append_nil]
  have harith : (192 + c / 64) % 32 * 64 + (128 + c % 64) % 64 = c := by omega
  rw [harith]

theorem feedBytes_three (c : Nat) (h1 : 2048 ≤ c) (h2 : c ≤ 65535)
    (hs : c < 55296 ∨ 57344 ≤ c) :
    feedBytes DecoderState.init [224 + c / 4096, 128 + c / 64 % 64, 128 + c % 64] =
      ([c], DecoderState.init) := by
  have e1 : feedByte DecoderState.init (224 + c / 4096) =
      ([], ⟨(224 + c / 4096) % 16, 2, 0,
        if 224 + c / 4096 = 224 then 160 else 128,
        if 224 + c / 4096 = 237 then 159 else 191⟩) := by
    rw [feedByte_init, startByte]
    rw [if_neg (by omega), if_neg (by omega), if_pos (by omega)]
  have hlb : (if 224 + c / 4096 = 224 then 160 else 128) ≤ 128 + c / 64 % 64 := by
    by_cases hE : 224 + c / 4096 = 224
    · rw [if_pos hE]; omega
    · rw [if_neg hE]; omega
  have hub : 128 + c / 64 % 64 ≤ (if 224 + c / 4096 = 237 then 159 else 191) := by
    by_cases hD : 224 + c / 4096 = 237
    · rw [if_pos hD]; omega
    · rw [if_neg hD]; omega
  have e2 : feedByte ⟨(224 + c / 4096) % 16, 2, 0,
        if 224 + c / 4096 = 224 then 160 else 128,
        if 224 + c / 4096 = 237 then 159 else 191⟩ (128 + c / 64 % 64) =
      ([], ⟨(224 + c / 4096) % 16 * 64 + (128 + c / 64 % 64) % 64, 2, 1, 128, 191⟩) :=
    feedByte_cont_mid _ _ _ _ _ _ (by omega) ⟨hlb, hub⟩ (by omega)
  have e3 : feedByte ⟨(224 + c / 4096) % 16 * 64 + (128 + c / 64 % 64) % 64, 2, 1, 128, 191⟩
        (128 + c % 64) =
      ([((224 + c / 4096) % 16 * 64 + (128 + c / 64 % 64) % 64) * 64 + (128 + c % 64) % 64],
        DecoderState.init) :=
    feedByte_cont_last _ _ _ 1 _ (by omega)
  simp only [feedBytes, e1, e2, e3, List.nil_append, List.append_nil]
  have harith :
      ((224 + c / 4096) % 16 * 64 + (128 + c / 64 % 64) % 64) * 64 + (128 + c % 64) % 64 = c := by
    omega
  rw [harith]

theorem feedBytes_four (c : Nat) (h1 : 65536 ≤ c) (h2 : c ≤ 1114111) :
    feedBytes DecoderState.init
        [240 + c / 262144, 128 + c / 4096 % 64, 128 + c / 64 % 64, 128 + c % 64] =
      ([c], DecoderState.init) := by
  have e1 : feedByte DecoderState.init (240 + c / 262144) =
      ([], ⟨(240 + c / 262144) % 8, 3, 0,
        if 240 + c / 262144 = 240 then 144 else 128,
        if 240 + c / 262144 = 244 then 143 else 191⟩) := by
    rw [feedByte_init, startByte]
    rw [if_neg (by omega), if_neg (by omega), if_neg (by omega), if_pos (by omega)]
  have hlb : (if 240 + c / 262144 = 240 then 144 else 128) ≤ 128 + c / 4096 % 64 := by
    by_cases hF : 240 + c / 262144 = 240
    · rw [if_pos hF]; omega
    · rw [if_neg hF]; omega
  have hub : 128 + c / 4096 % 64 ≤ (if 240 + c / 262144 = 244 then 143 else 191) := by
    by_cases hG : 240 + c / 262144 = 244
    · rw [if_pos hG]; omega
    · rw [if_neg hG]; omega
  have e2 : feedByte ⟨(240 + c / 262144) % 8, 3, 0,
        if 240 + c / 262144 = 240 then 144 else 128,
        if 240 + c / 262144 = 244 then 143 else 191⟩ (128 + c / 4096 % 64) =
      ([], ⟨(240 + c / 262144) % 8 * 64 + (128 + c / 4096 % 64) % 64, 3, 1, 128, 191⟩) :=
    feedByte_cont_mid _ _ _ _ _ _ (by omega) ⟨hlb, hub⟩ (by omega)
  have e3 : feedByte ⟨(240 + c / 262144) % 8 * 64 + (128 + c / 4096 % 64) % 64, 3, 1, 128, 191⟩
        (128 + c / 64 % 64) =
      ([], ⟨((240 + c / 262144) % 8 * 64 + (128 + c / 4096 % 64) % 64) * 64
              + (128 + c / 64 % 64) % 64, 3, 2, 128, 191⟩) :=
    feedByte_cont_mid _ _ _ _ _ _ (by omega) (by omega) (by omega)
  have e4 : feedByte ⟨((240 + c / 262144) % 8 * 64 + (128 + c / 4096 % 64) % 64) * 64
              + (128 + c / 64 % 64) % 64, 3, 2, 128, 191⟩ (128 + c % 64) =
      ([(((240 + c / 262144) % 8 * 64 + (128 + c / 4096 % 64) % 64) * 64
            + (128 + c / 64 % 64) % 64) * 64 + (128 + c % 64) % 64], DecoderState.init) :=
    feedByte_cont_last _ _ _ 2 _ (by omega)
  simp only [feedBytes, e1, e2, e3, e4, List.nil_append, List.append_nil]
  have harith : (((240 + c / 262144) % 8 * 64 + (128 + c / 4096 % 64) % 64) * 64
      + (128 + c / 64 % 64) % 64) * 64 + (128 + c % 64) % 64 = c := by omega
  rw [harith]

theorem feedBytes_encodeChar (c : Nat) (h : ScalarValue c) :
    feedBytes DecoderState.init (utf8EncodeChar c) = ([c], DecoderState.init) := by
  have h2 : c < 55296 ∨ (57344 ≤ c ∧ c ≤ 1114111) := h
  by_cases ha : c ≤ 127
  · rw [utf8EncodeChar, if_pos ha]
    exact feedBytes_ascii c ha
  · by_cases hb : c ≤ 2047
    · rw [utf8EncodeChar, if_neg ha, if_pos hb]
      exact feedBytes_two c (by omega) hb
    · by_cases hc : c ≤ 65535
      · rw [utf8EncodeChar, if_neg ha, if_neg hb, if_pos hc]
        exact feedBytes_three c (by omega) hc (by omega)
      · rw [utf8EncodeChar, if_neg ha, if_neg hb, if_neg hc]
        exact feedBytes_four c (by omega) (by omega)

theorem feedBytes_encode (cps : List Nat) (h : ∀ c ∈ cps, ScalarValue c) :
    feedBytes DecoderState.init (utf8Encode cps) = (cps, DecoderState.init) := by
  induction cps with
  | nil => rfl
  | cons c cs ih =>
    have henc : utf8Encode (c :: cs) = utf8EncodeChar c ++ utf8Encode cs := by
      simp [utf8Encode]
    rw [henc, feedBytes_append, feedBytes_encodeChar c (h c (by simp)),
      ih (fun x hx => h x (by simp [hx]))]
    simp

/-! ## Claim theorems -/

/-- Claim C4: the stream decoder decodes bytes to text incrementally, buffering
partial code units between reads; for every chunking of a byte stream that
encodes a sequence of Unicode scalar values (in particular chunkings that split
a multi-byte character across chunk boundaries), the concatenation of the
emitted text fragments equals the correct decoding of the whole byte
sequence. -/
theorem decoder_chunk_boundary_correct (cps : List Nat) (chunks : List (List Nat))
    (hscalar : ∀ c ∈ cps, ScalarValue c)
    (hchunks : chunks.flatten = utf8Encode cps) :
    (decodeChunks DecoderState.init chunks).1.flatten = cps := by
  rw [(decodeChunks_flatten chunks DecoderState.init).1, hchunks,
    feedBytes_encode cps hscalar]

/-- Witness for C4: the bytes of the two-character text 你好 (three bytes per
character) split as 2+2+1+1 with both characters cut across chunk
boundaries. -/
theorem decoder_chunk_boundary_correct_witness :
    (∀ c ∈ [20320, 22909], ScalarValue c) ∧
    ([[228, 189], [160, 229], [165], [189]] : List (List Nat)).flatten =
      utf8Encode [20320, 22909] ∧
    (decodeChunks DecoderState.init [[228, 189], [160, 229], [165], [189]]).1.flatten =
      [20320, 22909] :=
  ⟨by decide, by decide,
    decoder_chunk_boundary_correct [20320, 22909] [[228, 189], [160, 229], [165], [189]]
      (by decide) (by decide)⟩

/-- Claim C7: the read loop invokes `onChunk` exactly for each decoded
non-empty text fragment (never with an empty one), and invokes `onDone`
exactly once, as the final event, so no chunk callback follows it. -/
theorem stream_events_shape (s : DecoderState) (chunks : List (List Nat)) :
    streamLoop s chunks =
      (((decodeChunks s chunks).1.filter (fun t => !t.isEmpty)).map StreamEvent.chunk)
        ++ [StreamEvent.done] := by
  induction chunks generalizing s with
  | nil => simp [streamLoop, decodeChunks]
  | cons c cs ih =>
    by_cases h : (feedBytes s c).1.isEmpty
    · simp [streamLoop, decodeChunks, ih, h, List.filter_cons]
    · simp [streamLoop, decodeChunks, ih, h, List.filter_cons]

/-- Claim C6: a non-success HTTP status fails the operation with a transport
error carrying the status code, a missing readable body is likewise fatal, and
in both cases no `onChunk` callback has been invoked. -/
theorem stream_transport_failure (t : String) (resp : StreamResponse) :
    (resp.ok = false →
      sendMessageStream (some t) resp = Except.error (StreamError.transport resp.status)) ∧
    (resp.ok = true → resp.body = none →
      sendMessageStream (some t) resp = Except.error StreamError.noBody) ∧
    (resp.ok = false ∨ resp.body = none →
      emittedChunks (sendMessageStream (some t) resp) = []) := by
  refine ⟨fun h => ?_, fun h hb => ?_, fun h => ?_⟩
  · simp [sendMessageStream, h]
  · simp [sendMessageStream, h, hb]
  · rcases h with h | h
    · simp [sendMessageStream, h, emittedChunks]
    · cases hok : resp.ok
      · simp [sendMessageStream, hok, emittedChunks]
      · simp [sendMessageStream, hok, h, emittedChunks]

/-- Witness for C6: an HTTP 500 response with no readable bytes. -/
theorem stream_transport_failure_witness :
    sendMessageStream (some "tok") ⟨false, 500, none⟩ =
      Except.error (StreamError.transport 500) ∧
    emittedChunks (sendMessageStream (some "tok") ⟨false, 500, none⟩) = [] :=
  ⟨(stream_transport_failure "tok" ⟨false, 500, none⟩).1 rfl,
   (stream_transport_failure "tok" ⟨false, 500, none⟩).2.2 (Or.inl rfl)⟩

/-- Claim C9: applying a streamed delta appends the delta to the content of the
message at each position whose id matches, changes none of its other fields,
leaves every other message unchanged, preserves length and order positionally,
and is a no-op on the whole transcript when no message matches. -/
theorem updateContent_frame (msgs : List Message) (tid delta : String) :
    (updateContent msgs tid delta).length = msgs.length ∧
    (∀ i : Nat, (updateContent msgs tid delta)[i]? =
      (msgs[i]?).map (fun m =>
        if m.id = tid then { m with content := m.content ++ delta } else m)) ∧
    ((∀ m ∈ msgs, m.id ≠ tid) → updateContent msgs tid delta = msgs) := by
  refine ⟨by simp [updateContent], fun i => by simp [updateContent, List.getElem?_map], fun h => ?_⟩
  have hfun : ∀ m ∈ msgs,
      (if m.id = tid then { m with content := m.content ++ delta } else m) = m := by
    intro m hm
    rw [if_neg (h m hm)]
  calc updateContent msgs tid delta = msgs.map (fun m => m) := List.map_congr_left hfun
    _ = msgs := List.map_id msgs

/-- Witness for C9: a delta addressed at an id absent from the transcript
leaves the transcript untouched. -/
theorem updateContent_frame_witness :
    updateContent [⟨"1", "user", "hi", "t", "7"⟩] "assistant-2" "x" =
      [⟨"1", "user", "hi", "t", "7"⟩] :=
  (updateContent_frame [⟨"1", "user", "hi", "t", "7"⟩] "assistant-2" "x").2.2 (by decide)

theorem beginSend_guard_true (st : ChatState) (cid : String) (now : Nat) (iso : String)
    (h : sendGuardRejects st = true) : beginSend st cid now iso = st := by
  simp [beginSend, h]

theorem beginSend_idem (st : ChatState) (cid : String) (n1 n2 : Nat) (i1 i2 : String) :
    beginSend (beginSend st cid n1 i1) cid n2 i2 = beginSend st cid n1 i1 := by
  by_cases hg : sendGuardRejects st = true
  · rw [beginSend_guard_true st cid n1 i1 hg, beginSend_guard_true st cid n2 i2 hg]
  · have hg2 : sendGuardRejects st = false := by simpa using hg
    have h1 : sendGuardRejects (beginSend st cid n1 i1) = true := by
      simp [sendGuardRejects, beginSend_isSending st cid n1 i1 hg2]
    exact beginSend_guard_true _ cid n2 i2 h1

theorem handleSendMessage_stream_eq (st : ChatState) (cid : String) (now : Nat) (iso : String)
    (createRes : Except String String) (sr : StreamResult)
    (hguard : sendGuardRejects st = false) (hmock : st.usingMock = false) (hcid : cid ≠ "new") :
    handleSendMessage st cid now iso createRes sr =
      (settleStream (beginSend st cid now iso) now sr, [Effect.streamReq cid st.newMessage]) := by
  simp [handleSendMessage, hguard, hmock, hcid]

theorem beginSend_stream_eq (st : ChatState) (cid : String) (now : Nat) (iso : String)
    (hguard : sendGuardRejects st = false) (hmock : st.usingMock = false) (hcid : cid ≠ "new") :
    beginSend st cid now iso =
      { st with
        messages := st.messages ++
          [mkUserMessage now iso st.newMessage cid, mkPlaceholder now iso cid],
        newMessage := "",
        isSending := true } := by
  simp [beginSend, hguard, hmock, hcid]

/-- Claim C1: for every sequence of fragments delivered to the assistant
placeholder during one send, when the stream completes the placeholder (the
last transcript entry) carries exactly the concatenation of the fragments in
delivery order, with all other fields untouched and no post-hoc
transformation. -/
theorem placeholder_content_is_concatenation (st : ChatState) (cid : String) (now : Nat)
    (iso : String) (createRes : Except String String) (frags : List String)
    (hguard : sendGuardRejects st = false) (hmock : st.usingMock = false) (hcid : cid ≠ "new") :
    ((handleSendMessage st cid now iso createRes (StreamResult.ok frags)).1.messages).getLast? =
      some { id := tempAssistantId now, role := "assistant",
             content := concatFragments frags, created_at := iso, conversation_id := cid } := by
  rw [handleSendMessage_stream_eq st cid now iso createRes _ hguard hmock hcid,
    beginSend_stream_eq st cid now iso hguard hmock hcid]
  simp only [settleStream]
  rw [applyChunks_eq_map]
  have hsplit : st.messages ++
      [mkUserMessage now iso st.newMessage cid, mkPlaceholder now iso cid] =
      (st.messages ++ [mkUserMessage now iso st.newMessage cid]) ++
        [mkPlaceholder now iso cid] := by
    simp
  rw [hsplit, List.map_append]
  simp only [List.map_cons, List.map_nil]
  rw [List.getLast?_concat]
  simp [mkPlaceholder]

/-- Witness for C1: sending from the example state with fragment sequence
`Hi `, `there!`. -/
theorem placeholder_content_is_concatenation_witness :
    ((handleSendMessage exState "7" 5 "t0" (Except.ok "8")
        (StreamResult.ok ["Hi ", "there!"])).1.messages).getLast? =
      some { id := tempAssistantId 5, role := "assistant",
             content := concatFragments ["Hi ", "there!"], created_at := "t0",
             conversation_id := "7" } :=
  placeholder_content_is_concatenation exState "7" 5 "t0" (Except.ok "8") ["Hi ", "there!"]
    (by decide) (by decide) (by decide)

/-- Counterexample to claim C2: a send from the example state (empty
transcript) that fails with HTTP 500 before any bytes are read does not leave
the transcript as it was before the send: the catch block filters out only the
optimistic user message, so the empty assistant placeholder appended before the
streaming call remains. -/
theorem failed_send_keeps_placeholder_counterexample :
    ((handleSendMessage exState "7" 5 "t0" (Except.ok "8")
        (StreamResult.fail [] "send failed: 500")).1.messages) ≠ exState.messages := by
  decide

/-- Claim C2 as amended: after a send fails before any chunk was delivered,
the optimistic user message has been removed, but the empty assistant
placeholder remains appended to the pre-send transcript, and the error is
recorded. -/
theorem failed_send_rollback_amended (st : ChatState) (cid : String) (now : Nat) (iso : String)
    (createRes : Except String String) (e : String)
    (hguard : sendGuardRejects st = false) (hmock : st.usingMock = false) (hcid : cid ≠ "new")
    (hfresh : ∀ m ∈ st.messages, m.id ≠ tempUserId now) :
    (handleSendMessage st cid now iso createRes (StreamResult.fail [] e)).1.messages =
      st.messages ++ [mkPlaceholder now iso cid] ∧
    (handleSendMessage st cid now iso createRes (StreamResult.fail [] e)).1.error = some e := by
  rw [handleSendMessage_stream_eq st cid now iso createRes _ hguard hmock hcid,
    beginSend_stream_eq st cid now iso hguard hmock hcid]
  constructor
  · simp only [settleStream, applyChunks_nil]
    have h1 : st.messages.filter (fun m => m.id != tempUserId now) = st.messages := by
      rw [List.filter_eq_self]
      intro m hm
      simpa using hfresh m hm
    have h2 : ([mkUserMessage now iso st.newMessage cid,
        mkPlaceholder now iso cid].filter (fun m => m.id != tempUserId now)) =
        [mkPlaceholder now iso cid] := by
      simp [mkUserMessage, mkPlaceholder, tempIds_ne now]
    rw [List.filter_append, h1, h2]
  · simp [settleStream]

/-- Witness for the amended C2: a pre-acknowledgment failure from the example
state leaves exactly the empty placeholder behind and records the error. -/
theorem failed_send_rollback_amended_witness :
    (handleSendMessage exState "7" 5 "t0" (Except.ok "8")
        (StreamResult.fail [] "send failed: 500")).1.messages =
      exState.messages ++ [mkPlaceholder 5 "t0" "7"] ∧
    (handleSendMessage exState "7" 5 "t0" (Except.ok "8")
        (StreamResult.fail [] "send failed: 500")).1.error = some "send failed: 500" :=
  failed_send_rollback_amended exState "7" 5 "t0" (Except.ok "8") "send failed: 500"
    (by decide) (by decide) (by decide) (by decide)

/-- Claim C5: a submit is accepted only when the trimmed text is non-empty, a
model is selected, and no send is already in flight; a submit attempted while a
send is in progress is rejected with no side effects, so a rapid double
submission produces exactly one user message and one assistant message. -/
theorem submit_guard_idempotent (st : ChatState) (cid : String) (n1 n2 : Nat) (i1 i2 : String)
    (createRes : Except String String) (sr : StreamResult) (frags : List String) :
    (sendGuardRejects st = true ↔
      (jsTrim st.newMessage = "" ∨ st.selectedModel = "" ∨ st.isSending = true)) ∧
    (sendGuardRejects st = true →
      handleSendMessage st cid n1 i1 createRes sr = (st, []) ∧ beginSend st cid n1 i1 = st) ∧
    beginSend (beginSend st cid n1 i1) cid n2 i2 = beginSend st cid n1 i1 ∧
    (sendGuardRejects st = false → st.usingMock = false → cid ≠ "new" →
      (∀ m ∈ st.messages, m.id ≠ tempAssistantId n1) →
      (settleStream (beginSend (beginSend st cid n1 i1) cid n2 i2) n1
          (StreamResult.ok frags)).messages =
        st.messages ++ [mkUserMessage n1 i1 st.newMessage cid,
          { mkPlaceholder n1 i1 cid with content := concatFragments frags }]) := by
  refine ⟨?_,
    fun hg => ⟨by simp [handleSendMessage, hg], beginSend_guard_true st cid n1 i1 hg⟩,
    beginSend_idem st cid n1 n2 i1 i2,
    fun hguard hmock hcid hfresh => ?_⟩
  · simp [sendGuardRejects, Bool.or_eq_true, beq_iff_eq, or_assoc]
  · rw [beginSend_idem, beginSend_stream_eq st cid n1 i1 hguard hmock hcid]
    simp only [settleStream]
    rw [applyChunks_eq_map, List.map_append]
    have hmap1 : st.messages.map (fun m =>
        if m.id = tempAssistantId n1 then
          { m with content := m.content ++ concatFragments frags } else m) = st.messages :=
      (List.map_congr_left (fun m hm => if_neg (hfresh m hm))).trans (List.map_id st.messages)
    have hne : tempUserId n1 ≠ tempAssistantId n1 := (tempIds_ne n1).symm
    rw [hmap1]
    simp [mkUserMessage, mkPlaceholder, hne]

/-- Witness for C5: from the example state, a second submission issued while
the first is in flight changes nothing, and the double-submitted send ends with
exactly the one user message and the one assistant message appended. -/
theorem submit_guard_idempotent_witness :
    (handleSendMessage { exState with isSending := true } "7" 5 "t0" (Except.ok "8")
        (StreamResult.ok ["Hi"]) = ({ exState with isSending := true }, [])) ∧
    (settleStream (beginSend (beginSend exState "7" 5 "t0") "7" 6 "t1") 5
        (StreamResult.ok ["Hi"])).messages =
      exState.messages ++ [mkUserMessage 5 "t0" exState.newMessage "7",
        { mkPlaceholder 5 "t0" "7" with content := concatFragments ["Hi"] }] :=
  ⟨((submit_guard_idempotent { exState with isSending := true } "7" 5 6 "t0" "t1"
        (Except.ok "8") (StreamResult.ok ["Hi"]) ["Hi"]).2.1 (by decide)).1,
   (submit_guard_idempotent exState "7" 5 6 "t0" "t1" (Except.ok "8")
        (StreamResult.ok ["Hi"]) ["Hi"]).2.2.2 (by decide) (by decide) (by decide) (by decide)⟩

/-- Claim C10: a send on the `new` conversation marker issues exactly one
conversation-creation request whose title is the first 50 characters of the
submitted text (the whole text when shorter) together with the selected model,
followed by the navigation to the new conversation; no message-posting or
streaming request is issued on this path. -/
theorem new_conversation_request (st : ChatState) (now : Nat) (iso newId : String)
    (sr : StreamResult)
    (hguard : sendGuardRejects st = false) (hmock : st.usingMock = false) :
    (handleSendMessage st "new" now iso (Except.ok newId) sr).2 =
      [Effect.createConversationReq
        { title := st.newMessage.take 50, model := st.selectedModel },
       Effect.navigate ("/conversations/" ++ newId)] ∧
    (∀ c d : String,
      Effect.streamReq c d ∉ (handleSendMessage st "new" now iso (Except.ok newId) sr).2) := by
  have heq : (handleSendMessage st "new" now iso (Except.ok newId) sr).2 =
      [Effect.createConversationReq
        { title := st.newMessage.take 50, model := st.selectedModel },
       Effect.navigate ("/conversations/" ++ newId)] := by
    simp [handleSendMessage, hguard, hmock, createConversationBody]
  refine ⟨heq, fun c d => ?_⟩
  rw [heq]
  simp

/-- Witness for C10: creating a conversation from the example state. -/
theorem new_conversation_request_witness :
    (handleSendMessage exState "new" 5 "t0" (Except.ok "8")
        (StreamResult.ok [])).2 =
      [Effect.createConversationReq
        { title := exState.newMessage.take 50, model := exState.selectedModel },
       Effect.navigate ("/conversations/" ++ "8")] :=
  (new_conversation_request exState 5 "t0" "8" (StreamResult.ok []) (by decide) (by decide)).1

/-- Counterexample to claim C3: switching the model of conversation `1` from
`gpt-4` to `claude-3` with both the primary and the fallback update failing
leaves `claude-3`, not the previous `gpt-4`, as the selected model shown in
the UI: `setSelectedModel(modelId)` runs before any network call and is never
reverted. -/
theorem model_switch_visible_model_counterexample :
    (handleModelChange exState "1" "claude-3" (Except.error "update failed: 500")
        (Except.error "fallback failed: 500") (Except.ok ()) (Except.ok [])).selectedModel ≠
      exState.selectedModel := by
  decide

/-- Claim C3 as amended: when both the primary and the fallback update fail on
an existing conversation, the selected model shown in the UI is the target
model (the eager selection is not rolled back), while the conversation record
and the transcript are unchanged and the reported error is the primary
operation's error. -/
theorem model_switch_both_fail_amended (st : ChatState) (cid mid p f : String)
    (resetRes : Except String Unit) (reload : Except String (List Message))
    (hcid : cid ≠ "new") :
    (handleModelChange st cid mid (Except.error p) (Except.error f)
        resetRes reload).selectedModel = mid ∧
    (handleModelChange st cid mid (Except.error p) (Except.error f)
        resetRes reload).conversation = st.conversation ∧
    (handleModelChange st cid mid (Except.error p) (Except.error f)
        resetRes reload).messages = st.messages ∧
    (handleModelChange st cid mid (Except.error p) (Except.error f)
        resetRes reload).error = some p := by
  simp [handleModelChange, hcid]

/-- Witness for the amended C3. -/
theorem model_switch_both_fail_amended_witness :
    (handleModelChange exState "1" "claude-3" (Except.error "update failed: 500")
        (Except.error "fallback failed: 500") (Except.ok ()) (Except.ok [])).selectedModel =
      "claude-3" ∧
    (handleModelChange exState "1" "claude-3" (Except.error "update failed: 500")
        (Except.error "fallback failed: 500") (Except.ok ()) (Except.ok [])).conversation =
      exState.conversation ∧
    (handleModelChange exState "1" "claude-3" (Except.error "update failed: 500")
        (Except.error "fallback failed: 500") (Except.ok ()) (Except.ok [])).messages =
      exState.messages ∧
    (handleModelChange exState "1" "claude-3" (Except.error "update failed: 500")
        (Except.error "fallback failed: 500") (Except.ok ()) (Except.ok [])).error =
      some "update failed: 500" :=
  model_switch_both_fail_amended exState "1" "claude-3" "update failed: 500"
    "fallback failed: 500" (Except.ok ()) (Except.ok []) (by decide)

/-- Claim C8: when the primary model update fails and the fallback also fails,
the error surfaced to the user is the original primary error, not the
fallback error. -/
theorem model_switch_primary_error_surfaced (st : ChatState) (cid mid p f : String)
    (resetRes : Except String Unit) (reload : Except String (List Message))
    (hcid : cid ≠ "new") :
    (handleModelChange st cid mid (Except.error p) (Except.error f)
        resetRes reload).error = some p := by
  simp [handleModelChange, hcid]

/-- Witness for C8: both endpoints failing with distinct errors surfaces the
primary one. -/
theorem model_switch_primary_error_surfaced_witness :
    (handleModelChange exState "1" "claude-3" (Except.error "primary boom")
        (Except.error "fallback boom") (Except.ok ()) (Except.ok [])).error =
      some "primary boom" :=
  model_switch_primary_error_surfaced exState "1" "claude-3" "primary boom" "fallback boom"
    (Except.ok ()) (Except.ok []) (by decide)
